/-
Verification of the LLM provider-abstraction layer: retry engine,
structured-output extraction pipeline, provider adapters and model
registry, shallowly embedded from the Python sources
(utils/llm/utils.py, utils/llm/providers/*.py, utils/llm/model_registry.py).
-/

import Mathlib

set_option maxRecDepth 10000

/-! ## Python string primitives

Character-list counterparts of the Python `str` operations used by
`extract_json_from_text` and friends: `strip`, `find`, `rfind`,
`startswith`, `endswith`, slicing, `rstrip`. -/

/-- Python `str.isspace` characters relevant to `strip()` (ASCII subset). -/
def pyIsSpace (c : Char) : Bool :=
  c = ' ' || c = '\t' || c = '\n' || c = '\r' || c = '\x0b' || c = '\x0c'

/-- Python `str.lstrip()` on a character list. -/
def pyLstrip (s : List Char) : List Char :=
  s.dropWhile pyIsSpace

/-- Python `str.rstrip()` on a character list. -/
def pyRstrip (s : List Char) : List Char :=
  (s.reverse.dropWhile pyIsSpace).reverse

/-- Python `str.strip()` on a character list. -/
def pyStrip (s : List Char) : List Char :=
  pyRstrip (pyLstrip s)

/-- Python `str.rstrip(chars)` for a single strip character. -/
def pyRstripChar (s : List Char) (c : Char) : List Char :=
  (s.reverse.dropWhile (fun d => d = c)).reverse

/-- Whether `pre` is a prefix of `s` (Python `startswith`). -/
def listStartsWith : List Char → List Char → Bool
  | [], _ => true
  | _ :: _, [] => false
  | a :: as, b :: bs => a = b && listStartsWith as bs

/-- Python `str.endswith(suffix)`. -/
def listEndsWith (s suffix : List Char) : Bool :=
  listStartsWith suffix.reverse s.reverse

/-- Helper for `pyFind`: first index at or after `i` where `needle` starts. -/
def pyFindAux (needle : List Char) : List Char → Nat → Option Nat
  | [], i => if needle = [] then some i else none
  | c :: rest, i =>
    if listStartsWith needle (c :: rest) then some i
    else pyFindAux needle rest (i + 1)

/-- Python `str.find(sub)`: index of first occurrence (`none` for -1). -/
def pyFind (s needle : List Char) : Option Nat :=
  pyFindAux needle s 0

/-- Python `sub in s` substring containment. -/
def pyContains (s needle : List Char) : Bool :=
  (pyFind s needle).isSome

/-- Python `str.find(sub, start)`: search starting at index `start`. -/
def pyFindFrom (s needle : List Char) (start : Nat) : Option Nat :=
  (pyFind (s.drop start) needle).map (fun i => i + start)

/-- Python `str.rfind(ch)` for a single character. -/
def pyRfindChar (s : List Char) (c : Char) : Option Nat :=
  (pyFind s.reverse [c]).map (fun i => s.length - 1 - i)

/-! ## Exceptions and the retry engine (`get_response_with_retry`)

A Python exception is modelled by its dynamic classification — whether it
is an instance of `NonRetryableError` — together with its `str()` message.
The retry loop from `utils/llm/utils.py` is modelled as a fold over the
(finite prefix of the) stream of attempt outcomes; a prefix that is
exhausted without an exit leaves the loop `running` with the number of
backoff sleeps performed so far. -/

/-- A raised Python exception: `NonRetryableError` flag plus message. -/
structure Exc where
  nonRetryable : Bool
  msg : String
  deriving DecidableEq, Repr

/-- Outcome of one invocation of the wrapped `api_call`. -/
inductive Attempt (α : Type) where
  | ok (a : α)
  | exc (e : Exc)
  deriving DecidableEq, Repr

/-- Observable result of running `get_response_with_retry` against a finite
prefix of attempt outcomes. `sleeps` counts `time.sleep(wait_time)` calls. -/
inductive RetryResult (α : Type) where
  | value (a : α) (sleeps : Nat)
  | sentinel (s : String) (sleeps : Nat)
  | raised (e : Exc) (sleeps : Nat)
  | running (sleeps : Nat)
  deriving DecidableEq, Repr

/-- The degenerate repeated-output marker searched for in exception text. -/
def repetitiveMarker : List Char := "repetitive patterns".toList

/-- The sentinel string returned when the marker is found. -/
def reformatSentinel : String := "need_a_new_reformat_prompt"

/-- Loop body of `get_response_with_retry`, with an explicit sleep counter. -/
def retryGo {α : Type} : List (Attempt α) → Nat → RetryResult α
  | [], n => .running n
  | .ok a :: _, n => .value a n
  | .exc e :: rest, n =>
    if e.nonRetryable then .raised e n
    else if pyContains e.msg.toList repetitiveMarker then .sentinel reformatSentinel n
    else retryGo rest (n + 1)

/-- `get_response_with_retry(api_call, wait_time, error_msg)` run against a
finite prefix of attempt outcomes. -/
def getResponseWithRetry {α : Type} (attempts : List (Attempt α)) : RetryResult α :=
  retryGo attempts 0

/-! ## `extract_json_from_text` (utils/llm/utils.py)

Each block of the Python function becomes one definition; the pipeline is
their composition in source order. -/

/-- The open brace character, `"\x7b"`. -/
def braceOpen : Char := '\x7b'

/-- The close brace character, `"\x7d"`. -/
def braceClose : Char := '\x7d'

/-- Step 1: drop a `<think> ... </think>` reasoning block. The source
iterates over the one-element tag list, and only rewrites when the open tag
occurs and the close tag is found. -/
def stripReasoningTags (s : List Char) : List Char :=
  if pyContains s ("<think>".toList) then
    match pyFind s ("</think>".toList) with
    | some reasoningEnd => pyStrip (s.drop (reasoningEnd + 8))
    | none => s
  else s

/-- Step 2: when the text does not already start with a brace or bracket,
truncate to the later of the last `{` and the last `[`. -/
def recoverLastJsonStart (s : List Char) : List Char :=
  if listStartsWith [braceOpen] (pyStrip s) || listStartsWith ['['] (pyStrip s) then s
  else
    match pyRfindChar s braceOpen, pyRfindChar s '[' with
    | none, none => s
    | some i, none => pyStrip (s.drop i)
    | none, some j => pyStrip (s.drop j)
    | some i, some j => pyStrip (s.drop (max i j))

/-- Step 3: prefer the interior of a ```` ```json ```` fenced block, else of
the first generic ```` ``` ```` fenced block. -/
def extractFencedBlock (s : List Char) : List Char :=
  if pyContains s ("```json".toList) then
    match pyFind s ("```json".toList) with
    | some p =>
      let start := p + 7
      match pyFindFrom s ("```".toList) start with
      | some e => pyStrip ((s.drop start).take (e - start))
      | none => s
    | none => s
  else if pyContains s ("```".toList) then
    match pyFind s ("```".toList) with
    | some p =>
      let start := p + 3
      match pyFindFrom s ("```".toList) start with
      | some e => pyStrip ((s.drop start).take (e - start))
      | none => s
    | none => s
  else s

/-- The `while json_text.endswith("```")` loop; fuel bounds the iteration
count (each iteration shortens the text). -/
def dropFenceLoop : Nat → List Char → List Char
  | 0, s => s
  | fuel + 1, s =>
    if listEndsWith s ("```".toList) then
      dropFenceLoop fuel (pyRstrip (s.take (s.length - 3)))
    else s

/-- Step 4: `rstrip` backticks, strip, then the trailing-fence loop. -/
def stripTrailingFences (s : List Char) : List Char :=
  let s1 := pyStrip (pyRstripChar s '\x60')
  dropFenceLoop s1.length s1

/-- The index of the first `{` or `[`, whichever comes first. -/
def findJsonStart (s : List Char) : Option Nat :=
  match pyFind s [braceOpen], pyFind s ['['] with
  | none, none => none
  | some i, none => some i
  | none, some j => some j
  | some i, some j => some (min i j)

/-- The depth-counter scan of step 5: walk the text keeping independent
(signed, as in Python) counters for braces and brackets, returning the
index one past the position where both return to zero. -/
def scanBalanced : List Char → Int → Int → Nat → Option Nat
  | [], _, _, _ => none
  | c :: rest, braceCount, bracketCount, i =>
    if c = braceOpen then scanBalanced rest (braceCount + 1) bracketCount (i + 1)
    else if c = braceClose then
      if braceCount - 1 = 0 && bracketCount = 0 then some (i + 1)
      else scanBalanced rest (braceCount - 1) bracketCount (i + 1)
    else if c = '[' then scanBalanced rest braceCount (bracketCount + 1) (i + 1)
    else if c = ']' then
      if braceCount = 0 && bracketCount - 1 = 0 then some (i + 1)
      else scanBalanced rest braceCount (bracketCount - 1) (i + 1)
    else scanBalanced rest braceCount bracketCount (i + 1)

/-- Step 5: from the first `{` or `[`, keep the syntactically bounded
candidate ending where both depth counters return to zero. -/
def boundJsonCandidate (s : List Char) : List Char :=
  match findJsonStart s with
  | none => s
  | some jsonStart =>
    let t := s.drop jsonStart
    match scanBalanced t 0 0 0 with
    | some jsonEnd => pyStrip (t.take jsonEnd)
    | none => t

/-- `extract_json_from_text(text)`: the full pipeline. -/
def extractJsonFromText (text : String) : String :=
  let s0 := pyStrip text.toList
  let s1 := stripReasoningTags s0
  let s2 := recoverLastJsonStart s1
  let s3 := extractFencedBlock s2
  let s4 := stripTrailingFences s3
  String.mk (boundJsonCandidate s4)

/-! ## JSON values, `json.loads`, and Pydantic-style validation

`json.loads` (the standard-library collaborator called by
`parse_and_validate_json`) is modelled by a recursive-descent parser for
the JSON grammar. Floats are kept as their lexeme; nothing in the claims
computes with them. Objects follow Python `dict` semantics: a duplicate
key overwrites the earlier entry. -/

/-- Parsed JSON values (Python `json.loads` results). -/
inductive Json where
  | null
  | bool (b : Bool)
  | int (n : Int)
  | float (lexeme : String)
  | str (s : String)
  | arr (xs : List Json)
  | obj (fields : List (String × Json))

/-- Association-list update with Python `dict` overwrite semantics. -/
def assocSet {α β : Type} [DecidableEq α] : List (α × β) → α → β → List (α × β)
  | [], k, v => [(k, v)]
  | (k0, v0) :: rest, k, v =>
    if k0 = k then (k0, v) :: rest else (k0, v0) :: assocSet rest k v

/-- Association-list lookup (Python `dict` access). -/
def assocLookup {α β : Type} [DecidableEq α] : List (α × β) → α → Option β
  | [], _ => none
  | (k0, v0) :: rest, k => if k0 = k then some v0 else assocLookup rest k

/-- JSON-grammar whitespace. -/
def jsonIsWs (c : Char) : Bool :=
  c = ' ' || c = '\t' || c = '\n' || c = '\r'

/-- Skip JSON whitespace. -/
def jsonSkipWs (s : List Char) : List Char :=
  s.dropWhile jsonIsWs

/-- Value of a hex digit, if any. -/
def hexDigitVal (c : Char) : Option Nat :=
  if '0' ≤ c ∧ c ≤ '9' then some (c.toNat - 48)
  else if 'a' ≤ c ∧ c ≤ 'f' then some (c.toNat - 87)
  else if 'A' ≤ c ∧ c ≤ 'F' then some (c.toNat - 55)
  else none

/-- Body of a JSON string after the opening quote: characters up to the
closing quote, decoding escapes. Fuel bounds the input length. -/
def parseStringBody : Nat → List Char → List Char → Option (List Char × List Char)
  | 0, _, _ => none
  | _ + 1, [], _ => none
  | fuel + 1, c :: rest, acc =>
    if c = '"' then some (acc.reverse, rest)
    else if c = '\\' then
      match rest with
      | [] => none
      | e :: rest2 =>
        if e = '"' then parseStringBody fuel rest2 ('"' :: acc)
        else if e = '\\' then parseStringBody fuel rest2 ('\\' :: acc)
        else if e = '/' then parseStringBody fuel rest2 ('/' :: acc)
        else if e = 'b' then parseStringBody fuel rest2 ('\x08' :: acc)
        else if e = 'f' then parseStringBody fuel rest2 ('\x0c' :: acc)
        else if e = 'n' then parseStringBody fuel rest2 ('\n' :: acc)
        else if e = 'r' then parseStringBody fuel rest2 ('\r' :: acc)
        else if e = 't' then parseStringBody fuel rest2 ('\t' :: acc)
        else if e = 'u' then
          match rest2 with
          | h1 :: h2 :: h3 :: h4 :: rest3 =>
            match hexDigitVal h1, hexDigitVal h2, hexDigitVal h3, hexDigitVal h4 with
            | some a, some b, some c3, some d =>
              let code := ((a * 16 + b) * 16 + c3) * 16 + d
              parseStringBody fuel rest3 (Char.ofNat code :: acc)
            | _, _, _, _ => none
          | _ => none
        else none
    else if c.toNat < 32 then none
    else parseStringBody fuel rest (c :: acc)

/-- Digits to a natural number. -/
def digitsToNat (ds : List Char) : Nat :=
  ds.foldl (fun acc c => acc * 10 + (c.toNat - 48)) 0

/-- Parse a JSON number: an `int` when there is no fraction or exponent,
otherwise a `float` recorded by its lexeme. -/
def parseNumber (s : List Char) : Option (Json × List Char) :=
  let (neg, s1) := match s with
    | '-' :: rest => (true, rest)
    | _ => (false, s)
  let ds := s1.takeWhile Char.isDigit
  if ds = [] then none
  else if 1 < ds.length ∧ ds.headD ' ' = '0' then none
  else
    let s2 := s1.drop ds.length
    let hasFrac := listStartsWith ['.'] s2
    let hasExp := listStartsWith ['e'] s2 || listStartsWith ['E'] s2
    if hasFrac || hasExp then
      let fracPart : Option (List Char × List Char) :=
        if hasFrac then
          let fds := (s2.drop 1).takeWhile Char.isDigit
          if fds = [] then none else some ('.' :: fds, (s2.drop 1).drop fds.length)
        else some ([], s2)
      match fracPart with
      | none => none
      | some (fracLex, s3) =>
        if listStartsWith ['e'] s3 || listStartsWith ['E'] s3 then
          let (sgn, s4) := match s3.drop 1 with
            | '+' :: r => (['+'], r)
            | '-' :: r => (['-'], r)
            | r => (([] : List Char), r)
          let eds := s4.takeWhile Char.isDigit
          if eds = [] then none
          else
            let lex := (if neg then ['-'] else []) ++ ds ++ fracLex ++
              [s3.headD 'e'] ++ sgn ++ eds
            some (.float (String.mk lex), s4.drop eds.length)
        else
          let lex := (if neg then ['-'] else []) ++ ds ++ fracLex
          some (.float (String.mk lex), s3)
    else
      let n : Int := Int.ofNat (digitsToNat ds)
      some (.int (if neg then -n else n), s2)

mutual

/-- Parse one JSON value. Fuel bounds the nesting/length. -/
def parseJsonValue : Nat → List Char → Option (Json × List Char)
  | 0, _ => none
  | fuel + 1, s =>
    match s with
    | [] => none
    | c :: rest =>
      if c = '"' then
        match parseStringBody rest.length rest [] with
        | some (cs, s2) => some (.str (String.mk cs), s2)
        | none => none
      else if c = braceOpen then
        let s1 := jsonSkipWs rest
        match s1 with
        | c2 :: s2 =>
          if c2 = braceClose then some (.obj [], s2)
          else
            match parseJsonMembers fuel s1 [] with
            | some (fields, s3) => some (.obj fields, s3)
            | none => none
        | [] => none
      else if c = '[' then
        let s1 := jsonSkipWs rest
        match s1 with
        | c2 :: s2 =>
          if c2 = ']' then some (.arr [], s2)
          else
            match parseJsonItems fuel s1 [] with
            | some (items, s3) => some (.arr items, s3)
            | none => none
        | [] => none
      else if listStartsWith ("null".toList) s then some (.null, s.drop 4)
      else if listStartsWith ("true".toList) s then some (.bool true, s.drop 4)
      else if listStartsWith ("false".toList) s then some (.bool false, s.drop 5)
      else parseNumber s

/-- Parse object members (after the opening brace, at a key). -/
def parseJsonMembers : Nat → List Char → List (String × Json) →
    Option (List (String × Json) × List Char)
  | 0, _, _ => none
  | fuel + 1, s, acc =>
    match s with
    | '"' :: rest =>
      match parseStringBody rest.length rest [] with
      | some (keyChars, s2) =>
        match jsonSkipWs s2 with
        | ':' :: s3 =>
          match parseJsonValue fuel (jsonSkipWs s3) with
          | some (v, s4) =>
            let acc2 := assocSet acc (String.mk keyChars) v
            match jsonSkipWs s4 with
            | ',' :: s5 => parseJsonMembers fuel (jsonSkipWs s5) acc2
            | c :: s5 => if c = braceClose then some (acc2, s5) else none
            | [] => none
          | none => none
        | _ => none
      | none => none
    | _ => none

/-- Parse array items (after the opening bracket, at a value). -/
def parseJsonItems : Nat → List Char → List Json → Option (List Json × List Char)
  | 0, _, _ => none
  | fuel + 1, s, acc =>
    match parseJsonValue fuel s with
    | some (v, s2) =>
      match jsonSkipWs s2 with
      | ',' :: s3 => parseJsonItems fuel (jsonSkipWs s3) (v :: acc)
      | ']' :: s3 => some ((v :: acc).reverse, s3)
      | _ => none
    | none => none

end

/-- `json.loads(s)`: parse a complete document, rejecting trailing text. -/
def jsonLoads (s : String) : Option Json :=
  let cs := jsonSkipWs s.toList
  match parseJsonValue (cs.length + 1) cs with
  | some (v, rest) => if jsonSkipWs rest = [] then some v else none
  | none => none

/-! ## `parse_and_validate_json` against the Person schema

The structured calls are verified at the schema used by the repository's
own tests: a Pydantic model with a string field `name` and an integer
field `age`. Validation follows Pydantic lax mode for these field types:
a string field accepts exactly JSON strings; an integer field accepts a
JSON integer or a (signed) integer-valued numeric string, and rejects
booleans. Extra object keys are ignored. -/

/-- The validated object for the schema with fields name : str, age : int. -/
structure Person where
  name : String
  age : Int
  deriving DecidableEq, Repr

/-- Pydantic lax coercion of a JSON value to an `int` field. -/
def pydanticCoerceInt (j : Json) : Option Int :=
  match j with
  | .int n => some n
  | .str s =>
    let cs := s.toList
    let (neg, ds) := match cs with
      | '-' :: rest => (true, rest)
      | '+' :: rest => (false, rest)
      | _ => (false, cs)
    if ds ≠ [] ∧ ds.all Char.isDigit then
      some (if neg then -(Int.ofNat (digitsToNat ds)) else Int.ofNat (digitsToNat ds))
    else none
  | _ => none

/-- Pydantic validation of a parsed JSON value against the Person schema. -/
def validatePerson (j : Json) : Option Person :=
  match j with
  | .obj fields =>
    match assocLookup fields "name", assocLookup fields "age" with
    | some (.str n), some a =>
      match pydanticCoerceInt a with
      | some i => some ⟨n, i⟩
      | none => none
    | _, _ => none
  | _ => none

/-- Python slice `s[:200]` used for the diagnostic excerpt. -/
def pyTruncate200 (s : String) : String :=
  String.mk (s.toList.take 200)

/-- `parse_and_validate_json(json_text, response_schema, provider_name,
response_text)` at `response_schema = Person`: parse failure and
validation failure both raise `NonRetryableError`. -/
def parseAndValidateJson (jsonText : String) (providerName : String)
    (responseText : String) : Except Exc Person :=
  match jsonLoads jsonText with
  | none =>
    let errorText := if responseText ≠ "" then pyTruncate200 responseText
      else pyTruncate200 jsonText
    .error ⟨true, "Failed to parse JSON from " ++ providerName ++
      " response. Response text: " ++ errorText⟩
  | some jsonData =>
    match validatePerson jsonData with
    | some p => .ok p
    | none => .error ⟨true, providerName ++
      " response did not match expected schema."⟩

/-! ## Vendor content payloads and flattening

`PyVal` models the dynamic Python values a vendor client can hand back as
message content: `None`, strings, UTF-8 byte strings, lists, and dicts.
`pyReprVal`/`pyStr` model Python `repr`/`str` on these values (reached
only in the source's fallback branches). -/

/-- Dynamic vendor content values. -/
inductive PyVal where
  | none
  | str (s : String)
  | bytes (utf8 : String)
  | list (xs : List PyVal)
  | dict (entries : List (String × PyVal))

/-- Whether the value is Python `None`. -/
def PyVal.isNone : PyVal → Bool
  | .none => true
  | _ => false

mutual

/-- Python `repr` on a `PyVal` (strings quoted, dicts braced). -/
def pyReprVal : PyVal → String
  | .none => "None"
  | .str s => "\x27" ++ s ++ "\x27"
  | .bytes s => "b\x27" ++ s ++ "\x27"
  | .list xs => "[" ++ pyReprList xs ++ "]"
  | .dict es => "\x7b" ++ pyReprEntries es ++ "\x7d"

/-- Comma-joined `repr`s of list items. -/
def pyReprList : List PyVal → String
  | [] => ""
  | [v] => pyReprVal v
  | v :: rest => pyReprVal v ++ ", " ++ pyReprList rest

/-- Comma-joined `repr`s of dict entries. -/
def pyReprEntries : List (String × PyVal) → String
  | [] => ""
  | [(k, v)] => "\x27" ++ k ++ "\x27: " ++ pyReprVal v
  | (k, v) :: rest => "\x27" ++ k ++ "\x27: " ++ pyReprVal v ++ ", " ++ pyReprEntries rest

end

/-- Python `str` on a `PyVal` (strings unquoted, containers via `repr`). -/
def pyStr : PyVal → String
  | .none => "None"
  | .str s => s
  | v => pyReprVal v

/-- `_flatten_content` from utils/llm/providers/together.py: recursively
concatenate the textual leaves of the content value. Fuel bounds the
recursion depth; `flattenContent` supplies `sizeOf`, which dominates it.
The dict case follows the source: recurse into a non-`None` `"text"`
value, else into the first of the keys `"content"`, `"message"`,
`"output"` that is present, else fall through to `str(content)`. -/
def flattenContentFuel : Nat → PyVal → String
  | 0, _ => ""
  | fuel + 1, v =>
    match v with
    | .none => ""
    | .str s => s
    | .bytes s => s
    | .list xs => String.join (xs.map (flattenContentFuel fuel))
    | .dict es =>
      let fallback :=
        match assocLookup es "content" with
        | some w => flattenContentFuel fuel w
        | Option.none =>
          match assocLookup es "message" with
          | some w => flattenContentFuel fuel w
          | Option.none =>
            match assocLookup es "output" with
            | some w => flattenContentFuel fuel w
            | Option.none => pyStr (.dict es)
      match assocLookup es "text" with
      | some t => if t.isNone then fallback else flattenContentFuel fuel t
      | Option.none => fallback

mutual

/-- Structural size of a `PyVal`, dominating the flattening depth. -/
def pyValSize : PyVal → Nat
  | .none => 1
  | .str _ => 1
  | .bytes _ => 1
  | .list xs => 1 + pyValSizeList xs
  | .dict es => 1 + pyValSizeEntries es

/-- Summed sizes of list items. -/
def pyValSizeList : List PyVal → Nat
  | [] => 0
  | v :: rest => pyValSize v + pyValSizeList rest

/-- Summed sizes of dict values. -/
def pyValSizeEntries : List (String × PyVal) → Nat
  | [] => 0
  | (_, v) :: rest => pyValSize v + pyValSizeEntries rest

end

/-- `_flatten_content(content)` with sufficient fuel. -/
def flattenContent (v : PyVal) : String :=
  flattenContentFuel (pyValSize v) v

/-! ## Provider adapters: call shaping and response handling

Temperatures are modelled as exact rationals (`0.8` is `4/5`); no
floating-point arithmetic occurs in the embedded code paths. Each
`_call_model` is split into its pure stages: payload construction from
the caller's options, and response unwrapping. -/

/-- The caller-supplied per-call options read by every `_call_model`. -/
structure RequestOptions where
  temperature : Option ℚ
  maxTokens : Option Int
  deriving DecidableEq, Repr

/-- The options object with neither parameter supplied. -/
def RequestOptions.empty : RequestOptions := ⟨none, none⟩

/-- Outgoing payload of the OpenAI Responses API call. -/
structure OpenAIPayload where
  model : String
  input : String
  temperature : Option ℚ
  maxOutputTokens : Option Int
  deriving DecidableEq, Repr

/-- Payload construction in `OpenAIProvider._call_model` (and, with the
augmented prompt, `_call_model_structured`): `temperature =
options.get("temperature", 0.8)`; reasoning models omit temperature;
`max_output_tokens` only when supplied. -/
def openaiBuildPayload (reasoningModel : Bool) (modelName prompt : String)
    (opts : RequestOptions) : OpenAIPayload :=
  let temperature := opts.temperature.getD (0.8 : ℚ)
  { model := modelName
    input := prompt
    temperature := if reasoningModel then none else some temperature
    maxOutputTokens := opts.maxTokens }

/-- The vendor response object of the OpenAI Responses API, as read by
`_call_model`: `status`, `incomplete_details`, `output_text`. -/
structure OpenAIResponse where
  status : Option String
  incompleteDetails : Option String
  outputText : String
  deriving DecidableEq, Repr

/-- Python f-string rendering of an optional string (`None` when absent). -/
def pyOptStr : Option String → String
  | none => "None"
  | some s => s

/-- The `RuntimeError` message built for a non-`"completed"` status; the
reason is appended only when `incomplete_details` is truthy. -/
def openaiStatusMessage (status : Option String) (reason : Option String) : String :=
  let base := "OpenAI response incomplete (status=" ++ pyOptStr status ++ ")"
  match reason with
  | some r => if r ≠ "" then base ++ ", reason=" ++ r else base
  | none => base

/-- Status check and text unwrapping of `OpenAIProvider._call_model`: any
status other than `"completed"` raises `RuntimeError` (which is not a
`NonRetryableError`); otherwise the stripped `output_text` is returned. -/
def openaiHandleResponse (resp : OpenAIResponse) : Except Exc String :=
  if resp.status = some "completed" then
    .ok (String.mk (pyStrip resp.outputText.toList))
  else
    .error ⟨false, openaiStatusMessage resp.status resp.incompleteDetails⟩

/-- The message of the `assert max_tokens is not None` in
`AnthropicProvider._call_model` and `_call_model_structured`. -/
def anthropicAssertMessage : String := "max_tokens is required for Anthropic models."

/-- Call arguments sent to the Anthropic Messages API. -/
structure AnthropicCallArgs where
  model : String
  prompt : String
  maxTokens : Int
  temperature : Option ℚ
  deriving DecidableEq, Repr

/-- Option handling of `AnthropicProvider._call_model`: a missing
`max_tokens` raises `AssertionError` (not a `NonRetryableError`);
`temperature` enters `call_args` only when supplied. -/
def anthropicBuildArgs (modelName prompt : String) (opts : RequestOptions) :
    Except Exc AnthropicCallArgs :=
  match opts.maxTokens with
  | none => .error ⟨false, anthropicAssertMessage⟩
  | some mt => .ok ⟨modelName, prompt, mt, opts.temperature⟩

/-- Outgoing payload of a chat-completions call (Together, xAI, Mistral):
`temperature` and `max_tokens` are present only when supplied. -/
structure ChatPayload where
  model : String
  prompt : String
  temperature : Option ℚ
  maxTokens : Option Int
  deriving DecidableEq, Repr

/-- Payload construction in `TogetherProvider._call_model`. -/
def togetherBuildPayload (modelName prompt : String) (opts : RequestOptions) : ChatPayload :=
  ⟨modelName, prompt, opts.temperature, opts.maxTokens⟩

/-- Payload construction in `XAIProvider._call_model`. -/
def xaiBuildPayload (modelName prompt : String) (opts : RequestOptions) : ChatPayload :=
  ⟨modelName, prompt, opts.temperature, opts.maxTokens⟩

/-- Payload construction in `MistralProvider._call_model`. -/
def mistralBuildPayload (modelName prompt : String) (opts : RequestOptions) : ChatPayload :=
  ⟨modelName, prompt, opts.temperature, opts.maxTokens⟩

/-- Generation config built by `GoogleProvider._call_model`
(src/llm/providers/google.py): `candidate_count = 1`, `temperature` only
when supplied; `max_tokens` is never read. -/
structure GoogleConfig where
  candidateCount : Nat
  temperature : Option ℚ
  deriving DecidableEq, Repr

/-- Config construction in `GoogleProvider._call_model`. -/
def googleBuildConfig (opts : RequestOptions) : GoogleConfig :=
  ⟨1, opts.temperature⟩

/-- Content unwrapping of `TogetherProvider._call_model` (and
`_call_model_structured`): `None` content and a flattened-then-stripped
empty string both raise `NonRetryableError` (diagnostic reprs of the
vendor response object are elided from the messages). -/
def togetherHandleContent (content : PyVal) : Except Exc String :=
  if content.isNone then
    .error ⟨true, "Together API returned None for message content."⟩
  else
    let responseText := String.mk (pyStrip (flattenContent content).toList)
    if responseText = "" then
      .error ⟨true, "Together API returned empty response."⟩
    else .ok responseText

/-- Per-item text extraction of the list case in
`MistralProvider._call_model`: strings pass through, dicts contribute
their `"text"` entry when present, anything else contributes `str(item)`. -/
def mistralItemText (item : PyVal) : String :=
  match item with
  | .str s => s
  | .dict es =>
    match assocLookup es "text" with
    | some (.str t) => t
    | some v => pyStr v
    | none => pyReprVal (.dict es)
  | v => pyStr v

/-- Content unwrapping of `MistralProvider._call_model`: `None` content
becomes the empty string, strings pass through, lists concatenate their
items, anything else becomes `str(content)`. No emptiness check is made
and no exception is raised. -/
def mistralFlattenContent : PyVal → String
  | .none => ""
  | .str s => s
  | .list xs => String.join (xs.map mistralItemText)
  | v => pyStr v

/-- `MistralProvider._call_model` content stage: always returns the
flattened text (the empty string included). -/
def mistralCallModelText (content : PyVal) : Except Exc String :=
  .ok (mistralFlattenContent content)

/-! ## Provider construction

Every one of the six `__init__` methods repeats the same check: it raises
`ValueError` exactly when `api_key is None`, and otherwise hands the key,
unexamined, to the vendor client. -/

/-- The shared constructor logic, parameterised by the class name used in
the error message. Returns the key held by the constructed provider. -/
def providerInitKey (className : String) (apiKey : Option String) : Except String String :=
  match apiKey with
  | none => .error ("API key required for " ++ className ++
      ". Call configure_api_keys() or provide api_key parameter.")
  | some k => .ok k

/-! ## Provider variants and their hooks

The base class declares `_call_model` and `_call_model_structured` as
abstract methods. The structured hook, where a class body defines it, is
prompt augmentation plus the extraction pipeline plus validation over the
raw response text; `XAIProvider` (utils/llm/providers/xai.py) and
`GoogleProvider` (src/llm/providers/google.py) define no
`_call_model_structured` in their class bodies. -/

/-- The six provider variants. -/
inductive Variant where
  | openai
  | anthropic
  | google
  | xai
  | together
  | mistral
  deriving DecidableEq, Repr

/-- The shared JSON-fallback structured pipeline applied to the raw
response text returned by the vendor call (at the Person schema). -/
def structuredPipeline (providerName : String) (responseText : String) : Except Exc Person :=
  parseAndValidateJson (extractJsonFromText responseText) providerName responseText

/-- The `_call_model_structured` hook each class body defines, when it
defines one: extraction plus validation over the response text. -/
def variantStructuredHook : Variant → Option (String → Except Exc Person)
  | .openai => some (structuredPipeline "OpenAI")
  | .anthropic => some (structuredPipeline "Anthropic")
  | .together => some (structuredPipeline "Together")
  | .mistral => some (structuredPipeline "Mistral")
  | .xai => none
  | .google => none

/-- Whether the variant defines the plain `_call_model` hook. -/
def variantHasCallModel : Variant → Bool := fun _ => true

/-- A subclass of the abstract base can be instantiated exactly when no
abstract method is left unimplemented. -/
def variantInstantiable (v : Variant) : Bool :=
  variantHasCallModel v && (variantStructuredHook v).isSome

/-! ## Model registry: key store, instance cache, `configure_api_keys`

From utils/llm/model_registry.py. `_PROVIDER_API_KEYS` is a dict keyed by
provider class (here: variant); `_get_provider_instance` is an
`lru_cache`-decorated builder (successful results cached, exceptions
not); `configure_api_keys` optionally loads every variant's secret from
the remote store (a failed fetch leaves that variant untouched), then
applies the explicitly passed keys, then unconditionally clears the
instance cache. The remote store is an external collaborator and enters
as a function `gcp : Variant → Option String` (`none` = fetch raises). -/

/-- A constructed provider instance, recording the key it was built with. -/
structure ProviderInstance where
  key : String
  deriving DecidableEq, Repr

/-- The process-wide registry state: key store and instance cache. -/
structure RegistryState where
  keys : List (Variant × String)
  cache : List (Variant × ProviderInstance)
  deriving DecidableEq, Repr

/-- The initial state: nothing configured, nothing cached. -/
def RegistryState.init : RegistryState := ⟨[], []⟩

/-- Iteration order of `_PROVIDER_CLASS_TO_SECRET_NAME` and of the
explicit `key_mapping` (identical in the source). -/
def variantOrder : List Variant :=
  [.openai, .anthropic, .google, .xai, .together, .mistral]

/-- The explicit keyword arguments of one `configure_api_keys` call. -/
structure ConfigArgs where
  fromGcp : Bool
  openai : Option String
  anthropic : Option String
  google : Option String
  xai : Option String
  together : Option String
  mistral : Option String
  deriving DecidableEq, Repr

/-- A `configure_api_keys` call with `from_gcp=False` and no explicit keys. -/
def ConfigArgs.noKeys : ConfigArgs :=
  ⟨false, Option.none, Option.none, Option.none, Option.none, Option.none, Option.none⟩

/-- The explicit key passed for a variant, if any. -/
def ConfigArgs.explicitKey (a : ConfigArgs) : Variant → Option String
  | .openai => a.openai
  | .anthropic => a.anthropic
  | .google => a.google
  | .xai => a.xai
  | .together => a.together
  | .mistral => a.mistral

/-- The `from_gcp` loop: store each secret the remote store yields; a
fetch that raises (`none`) is swallowed and skips that variant. -/
def applyGcpKeys (gcp : Variant → Option String) (keys : List (Variant × String)) :
    List (Variant × String) :=
  variantOrder.foldl
    (fun ks v =>
      match gcp v with
      | some k => assocSet ks v k
      | none => ks)
    keys

/-- The explicit-key loop: store each key that was passed. -/
def applyExplicitKeys (a : ConfigArgs) (keys : List (Variant × String)) :
    List (Variant × String) :=
  variantOrder.foldl
    (fun ks v =>
      match a.explicitKey v with
      | some k => assocSet ks v k
      | none => ks)
    keys

/-- `configure_api_keys(...)`: optional remote load, then explicit keys,
then `_get_provider_instance.cache_clear()`. -/
def configureApiKeys (gcp : Variant → Option String) (a : ConfigArgs)
    (st : RegistryState) : RegistryState :=
  let keys1 := if a.fromGcp then applyGcpKeys gcp st.keys else st.keys
  let keys2 := applyExplicitKeys a keys1
  { keys := keys2, cache := [] }

/-- `_get_provider_instance(provider_cls)`: a cache hit returns the cached
instance; a miss builds an instance from the configured key and caches it;
with no configured key the constructor raises (`ValueError`) and nothing
is cached. -/
def getProviderInstance (st : RegistryState) (v : Variant) :
    RegistryState × Except String ProviderInstance :=
  match assocLookup st.cache v with
  | some inst => (st, .ok inst)
  | none =>
    match assocLookup st.keys v with
    | some k =>
      let inst : ProviderInstance := ⟨k⟩
      ({ st with cache := assocSet st.cache v inst }, .ok inst)
    | none => (st, .error "API key required")

/-- The operations that touch the registry state. -/
inductive RegOp where
  | config (gcp : Variant → Option String) (a : ConfigArgs)
  | lookup (v : Variant)

/-- State transition of one registry operation. -/
def applyRegOp (op : RegOp) (st : RegistryState) : RegistryState :=
  match op with
  | .config gcp a => configureApiKeys gcp a st
  | .lookup v => (getProviderInstance st v).1

/-- Run a sequence of registry operations from a state. -/
def runRegOps (ops : List RegOp) (st : RegistryState) : RegistryState :=
  ops.foldl (fun s op => applyRegOp op s) st

/-- Cache consistency: every cached instance was built from the key the
store currently holds for its variant. -/
def CacheConsistent (st : RegistryState) : Prop :=
  ∀ v inst, assocLookup st.cache v = some inst →
    assocLookup st.keys v = some inst.key

/-! ## Concrete inputs used by the individual verification results -/

/-- The raw response text of the spec's extraction example. -/
def c9RawText : String :=
  "reasoning text <think>ignored</think> \x7b\"name\": \"John Smith\", \"age\": 30\x7d"

/-- A remote secret store holding a key only for the OpenAI variant. -/
def gcpOpenAIOnly (b : String) : Variant → Option String :=
  fun v => match v with
  | .openai => some b
  | _ => Option.none

/-- `configure_api_keys(openai=k)`: explicit OpenAI key, no remote load. -/
def explicitOpenAIArgs (k : String) : ConfigArgs :=
  ⟨false, some k, Option.none, Option.none, Option.none, Option.none, Option.none⟩

/-- `configure_api_keys(from_gcp=True)`: remote load, no explicit keys. -/
def gcpOnlyArgs : ConfigArgs :=
  ⟨true, Option.none, Option.none, Option.none, Option.none, Option.none, Option.none⟩

/-- `configure_api_keys(from_gcp=True, openai=k)`: remote load plus an
explicit OpenAI key in the same call. -/
def mixedArgs (k : String) : ConfigArgs :=
  ⟨true, some k, Option.none, Option.none, Option.none, Option.none, Option.none⟩

/-! ## Helper lemmas -/

/-- Updating a key makes it present with the new value. -/
theorem assocSet_lookup_self {α β : Type} [DecidableEq α]
    (ks : List (α × β)) (k : α) (v : β) :
    assocLookup (assocSet ks k v) k = some v := by
  induction ks with
  | nil => simp [assocSet, assocLookup]
  | cons hd tl ih =>
    obtain ⟨k0, v0⟩ := hd
    by_cases h : k0 = k <;> simp [assocSet, assocLookup, h, ih]

/-- Updating one key leaves lookups of other keys unchanged. -/
theorem assocSet_lookup_ne {α β : Type} [DecidableEq α]
    (ks : List (α × β)) (k w : α) (x : β) (h : k ≠ w) :
    assocLookup (assocSet ks w x) k = assocLookup ks k := by
  have hwk : w ≠ k := Ne.symm h
  induction ks with
  | nil => simp [assocSet, assocLookup, hwk]
  | cons hd tl ih =>
    obtain ⟨k0, v0⟩ := hd
    by_cases h0 : k0 = w
    · subst h0
      simp [assocSet, assocLookup, hwk]
    · simp [assocSet, assocLookup, h0, ih]

/-- A run of transient exceptions whose messages avoid the repetitive
marker leaves the retry loop running, with one backoff sleep per attempt. -/
theorem retryGo_transient_replicate {α : Type} (e : Exc)
    (he : e.nonRetryable = false)
    (hm : pyContains e.msg.toList repetitiveMarker = false) :
    ∀ n k, retryGo (List.replicate n (Attempt.exc e)) k =
      (RetryResult.running (n + k) : RetryResult α) := by
  intro n
  induction n with
  | zero => intro k; simp [retryGo, List.replicate]
  | succ m ih =>
    intro k
    have hb : ¬(e.nonRetryable = true) := by rw [he]; exact Bool.false_ne_true
    have hc : ¬(pyContains e.msg.toList repetitiveMarker = true) := by
      rw [hm]; exact Bool.false_ne_true
    rw [List.replicate_succ]
    show retryGo (Attempt.exc e :: List.replicate m (Attempt.exc e)) k = _
    rw [retryGo, if_neg hb, if_neg hc, ih (k + 1)]
    congr 1
    omega

/-- Folding remote-store updates over variants other than a fixed one does
not change that variant's stored key. -/
theorem lookup_gcp_fold (gcp : Variant → Option String) :
    ∀ (vs : List Variant) (ks : List (Variant × String)),
      Variant.openai ∉ vs →
      assocLookup
        (vs.foldl (fun ks v =>
          match gcp v with
          | some k => assocSet ks v k
          | none => ks) ks) Variant.openai = assocLookup ks Variant.openai := by
  intro vs
  induction vs with
  | nil => intro ks _; rfl
  | cons v rest ih =>
    intro ks hmem
    have hv : Variant.openai ≠ v := fun hh => hmem (hh ▸ List.mem_cons_self v rest)
    have hrest : Variant.openai ∉ rest := fun hh => hmem (List.mem_cons_of_mem v hh)
    rw [List.foldl_cons]
    cases hgv : gcp v with
    | none => simp only [hgv]; exact ih _ hrest
    | some kv =>
      simp only [hgv]
      rw [ih _ hrest, assocSet_lookup_ne _ _ _ _ hv]

/-- A remote load (`applyGcpKeys`) stores the remote OpenAI value. -/
theorem lookup_applyGcpKeys (gcp : Variant → Option String)
    (ks : List (Variant × String)) (b : String)
    (h : gcp Variant.openai = some b) :
    assocLookup (applyGcpKeys gcp ks) Variant.openai = some b := by
  unfold applyGcpKeys variantOrder
  rw [List.foldl_cons]
  simp only [h]
  rw [lookup_gcp_fold gcp _ _ (by decide), assocSet_lookup_self]

/-- `CacheConsistent` is preserved by every registry operation. -/
theorem cacheConsistent_applyRegOp (op : RegOp) (st : RegistryState)
    (hst : CacheConsistent st) : CacheConsistent (applyRegOp op st) := by
  cases op with
  | config gcp a =>
    intro v inst hlook
    simp [applyRegOp, configureApiKeys, assocLookup] at hlook
  | lookup w =>
    have hkeys : (applyRegOp (RegOp.lookup w) st).keys = st.keys := by
      cases hcache : assocLookup st.cache w <;>
        cases hkey : assocLookup st.keys w <;>
        simp [applyRegOp, getProviderInstance, hcache, hkey]
    intro v inst hlook
    rw [hkeys]
    simp only [applyRegOp, getProviderInstance] at hlook
    cases hcache : assocLookup st.cache w with
    | some cached => rw [hcache] at hlook; exact hst v inst hlook
    | none =>
      rw [hcache] at hlook
      cases hkey : assocLookup st.keys w with
      | none => rw [hkey] at hlook; exact hst v inst hlook
      | some k =>
        rw [hkey] at hlook
        by_cases hvw : v = w
        · subst hvw
          rw [assocSet_lookup_self] at hlook
          cases hlook
          exact hkey
        · rw [assocSet_lookup_ne _ _ _ _ hvw] at hlook
          exact hst v inst hlook

/-- `CacheConsistent` holds along every run from a consistent state. -/
theorem cacheConsistent_runRegOps (ops : List RegOp) :
    ∀ st : RegistryState, CacheConsistent st → CacheConsistent (runRegOps ops st) := by
  induction ops with
  | nil => intro st h; exact h
  | cons op rest ih =>
    intro st h
    exact ih _ (cacheConsistent_applyRegOp op st h)

/-! ## Claim results -/

/-- C1, counterexample: a vendor response with status `"incomplete"` does
not produce a Permanent failure that propagates within a single attempt —
the raised error is not a `NonRetryableError`, and the retry engine
performs a backoff sleep and keeps running instead of re-raising. -/
theorem c1_counterexample :
    openaiHandleResponse ⟨some "incomplete", some "max_output_tokens", ""⟩ =
      .error ⟨false,
        "OpenAI response incomplete (status=incomplete), reason=max_output_tokens"⟩ ∧
    getResponseWithRetry
      [Attempt.exc ⟨false,
        "OpenAI response incomplete (status=incomplete), reason=max_output_tokens"⟩] =
      (RetryResult.running 1 : RetryResult String) :=
  ⟨rfl, by decide⟩

/-- C1, amended: a vendor response whose status is not `"completed"` makes
`_call_model` raise a `RuntimeError` carrying the status and any
incomplete-reason detail, but the error is not marked non-retryable: as
long as its message avoids the repetitive-output marker, the retry engine
sleeps and retries it indefinitely as a transient failure. -/
theorem c1_amended_status_error_is_transient (resp : OpenAIResponse)
    (h : resp.status ≠ some "completed") :
    openaiHandleResponse resp =
      .error ⟨false, openaiStatusMessage resp.status resp.incompleteDetails⟩ ∧
    (pyContains (openaiStatusMessage resp.status resp.incompleteDetails).toList
        repetitiveMarker = false →
      ∀ n, getResponseWithRetry
        (List.replicate n (Attempt.exc
          ⟨false, openaiStatusMessage resp.status resp.incompleteDetails⟩)) =
        (RetryResult.running n : RetryResult String)) := by
  constructor
  · rw [openaiHandleResponse, if_neg h]
  · intro hm n
    rw [getResponseWithRetry, retryGo_transient_replicate _ rfl hm n 0]
    rfl

/-- C1, witness: the amended theorem applied at a concrete incomplete
response and two attempts. -/
theorem c1_witness :
    getResponseWithRetry
      (List.replicate 2 (Attempt.exc
        ⟨false, openaiStatusMessage (some "incomplete") (some "max_output_tokens")⟩)) =
      (RetryResult.running 2 : RetryResult String) :=
  (c1_amended_status_error_is_transient
    ⟨some "incomplete", some "max_output_tokens", ""⟩ (by decide)).2 (by decide) 2

/-- C3, code bug: omitting `max_tokens` on the Anthropic-style variant
raises `AssertionError` — which is not a `NonRetryableError` — so instead
of failing within a single attempt, the retry engine classifies it as
transient and sleeps and retries it without bound (one sleep per
attempt). -/
theorem c3_missing_max_tokens_is_retried :
    anthropicBuildArgs "claude-sonnet-4-5-20250929" "prompt" RequestOptions.empty =
      .error ⟨false, anthropicAssertMessage⟩ ∧
    ∀ n, getResponseWithRetry
      (List.replicate n (Attempt.exc ⟨false, anthropicAssertMessage⟩)) =
      (RetryResult.running n : RetryResult String) := by
  refine ⟨rfl, fun n => ?_⟩
  rw [getResponseWithRetry, retryGo_transient_replicate _ rfl (by decide) n 0]
  rfl

/-- C10, confirmed: an exception that is not a `NonRetryableError` and
whose message contains `"repetitive patterns"` makes the retry wrapper
return the fixed sentinel string on that very attempt, so a structured
call yields a plain string rather than a value of the response schema. -/
theorem c10_repetitive_pattern_sentinel (e : Exc) (rest : List (Attempt Person))
    (he : e.nonRetryable = false)
    (hm : pyContains e.msg.toList repetitiveMarker = true) :
    getResponseWithRetry (Attempt.exc e :: rest) =
      RetryResult.sentinel "need_a_new_reformat_prompt" 0 ∧
    ∀ p n, getResponseWithRetry (Attempt.exc e :: rest) ≠ RetryResult.value p n := by
  have hb : ¬(e.nonRetryable = true) := by rw [he]; exact Bool.false_ne_true
  have hstep : getResponseWithRetry (Attempt.exc e :: rest) =
      RetryResult.sentinel reformatSentinel 0 := by
    rw [getResponseWithRetry, retryGo, if_neg hb, if_pos hm]
  refine ⟨hstep, fun p n h => ?_⟩
  rw [hstep] at h
  exact RetryResult.noConfusion h

/-- C10, witness: the theorem applied at a concrete transient exception
whose message carries the marker. -/
theorem c10_witness :
    getResponseWithRetry
      (Attempt.exc ⟨false, "output stuck in repetitive patterns"⟩ ::
        ([] : List (Attempt Person))) =
      RetryResult.sentinel "need_a_new_reformat_prompt" 0 :=
  (c10_repetitive_pattern_sentinel
    ⟨false, "output stuck in repetitive patterns"⟩ [] rfl (by decide)).1

/-- C9, confirmed: on the spec's example text the extraction pipeline
strips the reasoning tag pair and bounds the JSON candidate, and parsing
plus schema validation returns the validated Person object. -/
theorem c9_extraction_pipeline :
    extractJsonFromText c9RawText =
      "\x7b\"name\": \"John Smith\", \"age\": 30\x7d" ∧
    parseAndValidateJson (extractJsonFromText c9RawText) "OpenAI" c9RawText =
      .ok ⟨"John Smith", 30⟩ :=
  ⟨rfl, rfl⟩

/-- C4, counterexample: with no options supplied, the OpenAI-style payload
for a non-reasoning model still carries a temperature — the hidden default
0.8 — so the parameter does not appear "iff the caller supplied it". -/
theorem c4_counterexample :
    RequestOptions.empty.temperature = none ∧
    (openaiBuildPayload false "gpt-4.1-mini" "q" RequestOptions.empty).temperature =
      some (0.8 : ℚ) :=
  ⟨rfl, rfl⟩

/-- C4, amended: the Together-, xAI-, Mistral-, Google- and (given the
mandatory `max_tokens`) Anthropic-style variants include `temperature` and
`max_tokens` in the outgoing payload exactly when the caller supplied
them; the OpenAI-style variant omits temperature for reasoning models but
injects the default 0.8 when the caller omitted it for a non-reasoning
model, while never defaulting `max_output_tokens`. -/
theorem c4_amended_payload_optionality (modelName prompt : String)
    (opts : RequestOptions) :
    (togetherBuildPayload modelName prompt opts).temperature = opts.temperature ∧
    (togetherBuildPayload modelName prompt opts).maxTokens = opts.maxTokens ∧
    (xaiBuildPayload modelName prompt opts).temperature = opts.temperature ∧
    (xaiBuildPayload modelName prompt opts).maxTokens = opts.maxTokens ∧
    (mistralBuildPayload modelName prompt opts).temperature = opts.temperature ∧
    (mistralBuildPayload modelName prompt opts).maxTokens = opts.maxTokens ∧
    (googleBuildConfig opts).temperature = opts.temperature ∧
    (∀ mt, anthropicBuildArgs modelName prompt ⟨opts.temperature, some mt⟩ =
      .ok ⟨modelName, prompt, mt, opts.temperature⟩) ∧
    (openaiBuildPayload true modelName prompt opts).temperature = none ∧
    (openaiBuildPayload false modelName prompt opts).temperature =
      some (opts.temperature.getD (0.8 : ℚ)) ∧
    (openaiBuildPayload false modelName prompt opts).maxOutputTokens = opts.maxTokens :=
  ⟨rfl, rfl, rfl, rfl, rfl, rfl, rfl, fun _ => rfl, rfl, rfl, rfl⟩

/-- C7, counterexample: a Mistral-style plain call whose vendor content is
`None` returns the empty string to the caller instead of raising a
Permanent failure. -/
theorem c7_counterexample :
    mistralFlattenContent PyVal.none = "" ∧
    mistralCallModelText PyVal.none = .ok "" :=
  ⟨rfl, rfl⟩

/-- C7, amended: the Together-style variant raises a `NonRetryableError`
on `None` content and on a flattened result that is empty after trimming
(every error it raises there is non-retryable), but the Mistral-style
plain call instead returns the flattened text unchanged, the empty string
included. -/
theorem c7_amended_empty_content (c : PyVal) :
    (c.isNone = true →
      togetherHandleContent c =
        .error ⟨true, "Together API returned None for message content."⟩) ∧
    (c.isNone = false → pyStrip (flattenContent c).toList = [] →
      togetherHandleContent c =
        .error ⟨true, "Together API returned empty response."⟩) ∧
    (∀ e, togetherHandleContent c = .error e → e.nonRetryable = true) ∧
    mistralCallModelText PyVal.none = .ok "" := by
  refine ⟨fun hnone => ?_, fun hsome hempty => ?_, fun e he => ?_, rfl⟩
  · rw [togetherHandleContent, if_pos hnone]
  · rw [togetherHandleContent, if_neg (by rw [hsome]; exact Bool.false_ne_true),
      if_pos (by rw [hempty])]
  · rw [togetherHandleContent] at he
    by_cases h1 : c.isNone = true
    · rw [if_pos h1] at he
      cases he
      rfl
    · rw [if_neg h1] at he
      by_cases h2 : String.mk (pyStrip (flattenContent c).toList) = ""
      · rw [if_pos h2] at he
        cases he
        rfl
      · rw [if_neg h2] at he
        cases he

/-- C7, witness: the amended theorem applied to `None` content and to
whitespace-only string content. -/
theorem c7_witness :
    togetherHandleContent PyVal.none =
      .error ⟨true, "Together API returned None for message content."⟩ ∧
    togetherHandleContent (PyVal.str "  ") =
      .error ⟨true, "Together API returned empty response."⟩ :=
  ⟨(c7_amended_empty_content PyVal.none).1 rfl,
   (c7_amended_empty_content (PyVal.str "  ")).2.1 rfl (by decide)⟩

/-- C8, counterexample: every provider constructor checks only
`api_key is None`, so the empty string is accepted and the constructed
provider holds an empty key. -/
theorem c8_counterexample :
    providerInitKey "OpenAIProvider" (some "") = .ok "" :=
  rfl

/-- C8, amended: construction fails immediately exactly when the key is
absent (`None`); any supplied string — the empty string included — is
accepted, and the constructed provider holds exactly the supplied key. -/
theorem c8_amended_key_check (className : String) :
    providerInitKey className Option.none =
      .error ("API key required for " ++ className ++
        ". Call configure_api_keys() or provide api_key parameter.") ∧
    ∀ k, providerInitKey className (some k) = .ok k :=
  ⟨rfl, fun _ => rfl⟩

/-- C2, counterexample: with a remote store yielding `"B"` for the OpenAI
variant, calling `configure_api_keys(openai="A")` and then
`configure_api_keys(from_gcp=True)` leaves the stored OpenAI key `"B"`,
not `"A"` — the later call overwrites the earlier explicit key. -/
theorem c2_counterexample :
    ¬ assocLookup
        (configureApiKeys (gcpOpenAIOnly "B") gcpOnlyArgs
          (configureApiKeys (gcpOpenAIOnly "B") (explicitOpenAIArgs "A")
            RegistryState.init)).keys Variant.openai = some "A" ∧
    assocLookup
      (configureApiKeys (gcpOpenAIOnly "B") gcpOnlyArgs
        (configureApiKeys (gcpOpenAIOnly "B") (explicitOpenAIArgs "A")
          RegistryState.init)).keys Variant.openai = some "B" := by
  decide

/-- C2, amended: explicit keys take precedence over remote-sourced keys
only within a single `configure_api_keys` call; across separate calls the
later call wins, so explicit-then-remote ends with the remote value while
remote-then-explicit ends with the explicit value. -/
theorem c2_amended_precedence (gcp : Variant → Option String)
    (st : RegistryState) (k b : String)
    (h : gcp Variant.openai = some b) :
    assocLookup (configureApiKeys gcp (mixedArgs k) st).keys Variant.openai =
      some k ∧
    assocLookup
      (configureApiKeys gcp gcpOnlyArgs
        (configureApiKeys gcp (explicitOpenAIArgs k) st)).keys Variant.openai =
      some b ∧
    assocLookup
      (configureApiKeys gcp (explicitOpenAIArgs k)
        (configureApiKeys gcp gcpOnlyArgs st)).keys Variant.openai =
      some k := by
  refine ⟨?_, ?_, ?_⟩
  · exact assocSet_lookup_self (applyGcpKeys gcp st.keys) Variant.openai k
  · exact lookup_applyGcpKeys gcp
      (configureApiKeys gcp (explicitOpenAIArgs k) st).keys b h
  · exact assocSet_lookup_self
      (configureApiKeys gcp gcpOnlyArgs st).keys Variant.openai k

/-- C2, witness: the amended theorem applied at a concrete remote store
and concrete keys. -/
theorem c2_witness :
    assocLookup
      (configureApiKeys (gcpOpenAIOnly "B") (mixedArgs "A")
        RegistryState.init).keys Variant.openai = some "A" ∧
    assocLookup
      (configureApiKeys (gcpOpenAIOnly "B") gcpOnlyArgs
        (configureApiKeys (gcpOpenAIOnly "B") (explicitOpenAIArgs "A")
          RegistryState.init)).keys Variant.openai = some "B" ∧
    assocLookup
      (configureApiKeys (gcpOpenAIOnly "B") (explicitOpenAIArgs "A")
        (configureApiKeys (gcpOpenAIOnly "B") gcpOnlyArgs
          RegistryState.init)).keys Variant.openai = some "A" :=
  c2_amended_precedence (gcpOpenAIOnly "B") RegistryState.init "A" "B" rfl

/-- C5, code bug: the `_call_model_structured` hook is abstract in the
base class and the xAI and Google class bodies do not define it, so only
four of the six variants implement both hooks and are instantiable as
concrete subclasses. -/
theorem c5_structured_hook_coverage :
    variantInstantiable Variant.openai = true ∧
    variantInstantiable Variant.anthropic = true ∧
    variantInstantiable Variant.together = true ∧
    variantInstantiable Variant.mistral = true ∧
    variantInstantiable Variant.xai = false ∧
    variantInstantiable Variant.google = false :=
  ⟨rfl, rfl, rfl, rfl, rfl, rfl⟩

/-- C6, confirmed: every `configure_api_keys` call clears the whole
provider-instance cache; the next lookup for a variant whose key is
configured builds a fresh instance holding exactly the currently stored
key; and along every operation sequence from the initial state, a cached
instance always carries the key currently stored for its variant. -/
theorem c6_cache_never_stale :
    (∀ gcp a st, (configureApiKeys gcp a st).cache = []) ∧
    (∀ gcp a st v k,
      assocLookup (configureApiKeys gcp a st).keys v = some k →
      getProviderInstance (configureApiKeys gcp a st) v =
        ({ keys := (configureApiKeys gcp a st).keys,
           cache := [(v, ⟨k⟩)] }, .ok ⟨k⟩)) ∧
    (∀ ops, CacheConsistent (runRegOps ops RegistryState.init)) := by
  refine ⟨fun _ _ _ => rfl, fun gcp a st v k h => ?_, fun ops => ?_⟩
  · simp [getProviderInstance, assocLookup, h]
    rw [show (configureApiKeys gcp a st).cache = [] from rfl]
    rfl
  · exact cacheConsistent_runRegOps ops RegistryState.init
      (fun v inst hcontra => Option.noConfusion hcontra)

/-- C6, witness: after a remote-only configuration from the initial state,
looking up the OpenAI variant builds a fresh instance from the newly
stored key. -/
theorem c6_witness :
    getProviderInstance
      (configureApiKeys (gcpOpenAIOnly "B") gcpOnlyArgs RegistryState.init)
      Variant.openai =
      ({ keys := (configureApiKeys (gcpOpenAIOnly "B") gcpOnlyArgs
            RegistryState.init).keys,
         cache := [(Variant.openai, ⟨"B"⟩)] }, .ok ⟨"B"⟩) :=
  c6_cache_never_stale.2.1 (gcpOpenAIOnly "B") gcpOnlyArgs RegistryState.init
    Variant.openai "B" (by decide)

